import Mathlib

/-!
Shallow embedding of the authentication/authorization core of the
book-inventory backend: the user service (signup, signin, changePassword,
findUserByEmail, findOne, accessToken), the request guards (JwtAuthGuard,
RolesGuard) and the optional-auth identity-resolving middleware
(LoggerMiddleware).

Modelling conventions:
  * the TypeORM repository is a `List UserEntity` (rows in insertion order);
    `findOne({where})` is `List.find?`;
  * bcrypt is abstracted by a hash function `hashF : String → String`;
    `compare plain stored` is `hashF plain = stored`;
  * `jsonwebtoken.sign` is abstracted by a parameter
    `signF : TokenClaims → String → String` (claims, secret ↦ token), and
    `verify` by a parameter returning the decoded claims or an error;
  * `process.env.ACCESS_TOKEN_SECRET_KEY` is an `Option String`
    (`some ""` models an empty-string value, which is falsy in JS);
  * a thrown Nest `HttpException` is an `Except.error`; JS `undefined` /
    `null` results are `Option.none`.
-/

namespace BookInventory

/-- Role enum (`RoleTypes` in `enum/user-enum`): `USER`, `ADMIN`. -/
inductive RoleTypes where
  | user
  | admin
deriving DecidableEq, Repr

/-- Account status enum (`Status` in `enum/user-enum`): `ACTIVE`, `DEACTIVATED`. -/
inductive Status where
  | active
  | deactivated
deriving DecidableEq, Repr

/-- `UserEntity` (table `Users`): the columns declared in
`user/entities/user.entity.ts`. -/
structure UserEntity where
  id : Int
  name : String
  email : String
  password : String
  role : List RoleTypes
  status : Status
  createdAt : Int
  updatedAt : Int
  createdBy : String
  updatedBy : String
deriving DecidableEq, Repr

/-- `UserSignupDto`: `status`, `createdBy`, `updatedBy` are `@IsOptional`. -/
structure UserSignupDto where
  name : String
  email : String
  password : String
  role : List RoleTypes
  status : Option Status
  createdBy : Option String
  updatedBy : Option String
deriving DecidableEq, Repr

/-- `UserSigninDto`. -/
structure UserSigninDto where
  email : String
  password : String
deriving DecidableEq, Repr

/-- `UserChangePasswordDto`. -/
structure UserChangePasswordDto where
  email : String
  currentPassword : String
  newPassword : String
deriving DecidableEq, Repr

/-- A thrown Nest `HttpException`, by exception class and message. -/
inductive HttpError where
  | badRequest (msg : String)
  | notFound (msg : String)
  | unauthorized (msg : String)
  | forbidden (msg : String)
deriving DecidableEq, Repr

/-- The JWT payload signed by `UserService.accessToken`:
`{ id: user.id, email: user.email }`. -/
structure TokenClaims where
  id : Int
  email : String
deriving DecidableEq, Repr

/-- `UserService.findUserByEmail`: `findOne({ where: { email }, select: [...] })`.
The select list names every column (including `password`), so the full row is
returned. -/
def findUserByEmail (store : List UserEntity) (email : String) :
    Option UserEntity :=
  store.find? (fun u => u.email = email)

/-- `UserService.signup`. Rejects when the email is taken; otherwise
forces `createdBy`/`updatedBy` to `'Admin'`, hashes the password, creates and
saves the entity. `nextId` is the generated primary key and `now` the
DB-assigned epoch timestamp. Returns the thrown-or-returned value together
with the repository contents after the call. `signupEntity` is the entity
built from the (mutated) DTO by `create`/`save`. -/
def signupEntity (hashF : String → String) (nextId : Int) (now : Int)
    (dto : UserSignupDto) : UserEntity :=
  { id := nextId
    name := dto.name
    email := dto.email
    password := hashF dto.password
    role := dto.role
    status := dto.status.getD Status.active
    createdAt := now
    updatedAt := now
    createdBy := "Admin"
    updatedBy := "Admin" }

/-- The signup operation itself. -/
def signup (hashF : String → String) (nextId : Int) (now : Int)
    (store : List UserEntity) (dto : UserSignupDto) :
    Except HttpError UserEntity × List UserEntity :=
  match findUserByEmail store dto.email with
  | some _ => (.error (.badRequest "This email is already created"), store)
  | none =>
      let user : UserEntity := signupEntity hashF nextId now dto
      (.ok user, store ++ [user])

/-- `UserService.signin`: not-found, deactivated and password checks in
source order. -/
def signin (hashF : String → String) (store : List UserEntity)
    (dto : UserSigninDto) : Except HttpError UserEntity :=
  match findUserByEmail store dto.email with
  | none => .error (.badRequest "User not found")
  | some userExist =>
      if userExist.status = Status.deactivated then
        .error (.badRequest "User is Deactivated")
      else if hashF dto.password = userExist.password then
        .ok userExist
      else
        .error (.badRequest "Invalid credentials")

/-- The value returned by `UserService.changePassword`: the entity after
`Object.assign(userExist, userChangePasswordDto, { password, status })`.
Besides overwriting the entity columns, the assign copies the DTO's
`currentPassword` and `newPassword` keys onto the returned object; they are
not columns of `Users`, so they are carried separately from the row. -/
structure ChangePasswordResponse where
  entity : UserEntity
  currentPassword : Option String
  newPassword : Option String
deriving DecidableEq, Repr

/-- `UserService.changePassword`: same lookup/deactivated/password checks as
signin (against `currentPassword`), then merges the DTO into the found
entity, overriding `password` with the hash of `newPassword` and `status`
with the entity's own status, and saves. Saving persists the entity's
columns into the row with the same `id`; `now` is the DB-updated epoch
timestamp. -/
def changePassword (hashF : String → String) (now : Int)
    (store : List UserEntity) (dto : UserChangePasswordDto) :
    Except HttpError ChangePasswordResponse × List UserEntity :=
  match findUserByEmail store dto.email with
  | none => (.error (.badRequest "User not found"), store)
  | some userExist =>
      if userExist.status = Status.deactivated then
        (.error (.badRequest "User is Deactivated"), store)
      else if hashF dto.currentPassword = userExist.password then
        let saved : UserEntity :=
          { userExist with
              email := dto.email
              password := hashF dto.newPassword
              status := userExist.status
              updatedAt := now }
        (.ok { entity := saved
               currentPassword := some dto.currentPassword
               newPassword := some dto.newPassword },
         store.map (fun u => if u.id = userExist.id then saved else u))
      else
        (.error (.badRequest "Invalid credentials"), store)

/-- `UserService.findOne(id)`: throws on a falsy id (`!id`, i.e. `0` for an
integer), otherwise `findOne({ where: { id } })`. -/
def findOne (store : List UserEntity) (id : Int) :
    Except String (Option UserEntity) :=
  if id = 0 then .error s!"{id} is an invalid user ID"
  else .ok (store.find? (fun u => u.id = id))

/-- The hard-coded fallback applied to `process.env.ACCESS_TOKEN_SECRET_KEY`
in `UserService.accessToken` and in `LoggerMiddleware`. -/
def fallbackSecretKey : String :=
  "likujyhtgrfedwsedrftgyhujikolplokijuhygtrfedwsedrftghyujikolpplokijuhy"

/-- `process.env.ACCESS_TOKEN_SECRET_KEY || <fallback literal>`: the fallback
is used when the variable is unset or set to the empty string (falsy). -/
def resolveSecretKey (envSecretKey : Option String) : String :=
  match envSecretKey with
  | none => fallbackSecretKey
  | some s => if s = "" then fallbackSecretKey else s

/-- `UserService.accessToken`: resolves the secret (with fallback), throws if
the resolved secret is falsy, otherwise signs `{ id, email }` with it. -/
def accessToken (signF : TokenClaims → String → String)
    (envSecretKey : Option String) (user : UserEntity) :
    Except String String :=
  let secretKey := resolveSecretKey envSecretKey
  if secretKey = "" then
    .error "ACCESS_TOKEN_SECRET_KEY is not defined in the environment variables"
  else
    .ok (signF { id := user.id, email := user.email } secretKey)

/-- Outcome of a guard's `canActivate`: `true`, or a thrown `HttpException`. -/
inductive GuardResult where
  | allow
  | reject (e : HttpError)
deriving DecidableEq, Repr

/-- The static public-route allowlist duplicated in both guards. -/
def ignoredRoutes : List String :=
  ["/api/v1/user/signin", "/api/v1/user/signup"]

/-- JS `string.split(' ')`: split on single space characters (modelled on
the underlying character list; adjacent separators yield empty parts, and
splitting the empty string yields `[""]`, exactly as in JS). -/
def splitSpace (s : String) : List String :=
  (s.toList.splitOn ' ').map List.asString

/-- `request.headers['authorization']?.split(' ')[1]` in `JwtAuthGuard`,
followed by the `if (!token)` falsiness test: an absent header, a header
without a second space-separated part, or an empty second part all yield no
token. -/
def headerToken (authHeader : Option String) : Option String :=
  match authHeader with
  | none => none
  | some h =>
      match (splitSpace h)[1]? with
      | none => none
      | some t => if t = "" then none else some t

/-- `JwtAuthGuard.canActivate`: allow allowlisted paths, then require a
token that passes `jwtService.verify` (abstracted by `verifyOk`). -/
def JwtAuthGuard.canActivate (verifyOk : String → Bool) (path : String)
    (authHeader : Option String) : GuardResult :=
  if path ∈ ignoredRoutes then .allow
  else
    match headerToken authHeader with
    | none => .reject (.unauthorized "Token not provided. Please log in.")
    | some token =>
        if verifyOk token then .allow
        else .reject (.unauthorized "Invalid or expired token.")

/-- `RolesGuard.canActivate`: allow allowlisted urls; allow when the handler
declares no `'roles'` metadata; otherwise require an attached `request.user`
whose `role` array includes some required role
(`roles.some(role => user.role.includes(role))`). -/
def RolesGuard.canActivate (url : String) (user : Option UserEntity)
    (roles : Option (List RoleTypes)) : GuardResult :=
  if url ∈ ignoredRoutes then .allow
  else
    match roles with
    | none => .allow
    | some requiredRoles =>
        match user with
        | none => .reject (.forbidden "User not found")
        | some u =>
            if requiredRoles.any (fun r => decide (r ∈ u.role)) then .allow
            else .reject (.forbidden "You do not have the required role")

/-- Outcome of an Express middleware: calls `next()` having attached
`req.currentUser` (or not), or fails the request with a thrown exception. -/
inductive MiddlewareOutcome where
  | next (currentUser : Option UserEntity)
  | fail (e : HttpError)
deriving DecidableEq, Repr

/-- `LoggerMiddleware.use` (`utility/middlewares/current-user-middleware.ts`):
with no `authorization` header, or one not starting with `Bearer`, it calls
`next()` without attaching a user. Otherwise it verifies the token
(`verifyF token secret`, returning the decoded `{ id }` claims or an error)
and loads the user with `userService.findOne`; any error thrown inside the
`try` block — a missing token part, a failed verification, or a `findOne`
throw — is caught and degrades to `next()` with no user attached.
`LoggerMiddleware.tryResolve` is the body of the `try` block. -/
def LoggerMiddleware.tryResolve
    (verifyF : String → String → Except String TokenClaims)
    (secretKey : String) (store : List UserEntity) (h : String) :
    Except String (Option UserEntity) :=
  match (splitSpace h)[1]? with
  | none => .error "jwt must be provided"
  | some token =>
      match verifyF token secretKey with
      | .error e => .error e
      | .ok decoded => findOne store decoded.id

/-- The middleware proper: dispatch on the header, then run the `try` block
and catch every error it throws. -/
def LoggerMiddleware.use
    (verifyF : String → String → Except String TokenClaims)
    (envSecretKey : Option String) (store : List UserEntity)
    (authHeader : Option String) : MiddlewareOutcome :=
  match authHeader with
  | none => .next none
  | some h =>
      if ¬ h.startsWith "Bearer" then .next none
      else
        match LoggerMiddleware.tryResolve verifyF (resolveSecretKey envSecretKey)
            store h with
        | .ok u => .next u
        | .error _ => .next none

/-! Concrete fixtures used to exercise the definitions. -/

/-- A concrete stand-in for bcrypt's `hash(·, 10)` (injective on plaintexts,
never the identity). -/
def demoHash (plain : String) : String := "bcrypt$" ++ plain

/-- A concrete stand-in for `jsonwebtoken.sign`. -/
def demoSign (claims : TokenClaims) (secret : String) : String :=
  claims.email ++ "." ++ secret

/-- An active stored identity for `a@x.com` with password `password1`. -/
def aliceActive : UserEntity :=
  { id := 1
    name := "Alice"
    email := "a@x.com"
    password := demoHash "password1"
    role := [RoleTypes.user]
    status := Status.active
    createdAt := 0
    updatedAt := 0
    createdBy := "Admin"
    updatedBy := "Admin" }

/-- The same identity, deactivated. -/
def aliceDeactivated : UserEntity :=
  { aliceActive with status := Status.deactivated }

/-- The same identity, with a password other than `password1`. -/
def aliceOtherPwd : UserEntity :=
  { aliceActive with password := demoHash "other-password" }

/-- A signup request for `a@x.com`. -/
def demoSignupDto : UserSignupDto :=
  { name := "Alice"
    email := "a@x.com"
    password := "password1"
    role := [RoleTypes.user]
    status := none
    createdBy := none
    updatedBy := none }

/-- An unauthenticated signup request that asks for the `ADMIN` role. -/
def adminSignupDto : UserSignupDto :=
  { name := "Mallory"
    email := "m@x.com"
    password := "password1"
    role := [RoleTypes.admin]
    status := none
    createdBy := none
    updatedBy := none }

/-- A signin request for `a@x.com` / `password1`. -/
def demoSigninDto : UserSigninDto :=
  { email := "a@x.com", password := "password1" }

/-- A change-password request for `a@x.com`: `password1` → `password2`. -/
def demoChangeDto : UserChangePasswordDto :=
  { email := "a@x.com", currentPassword := "password1",
    newPassword := "password2" }

/-! Helper lemmas. -/

/-- The resolved signing secret is never the empty string: either the
configured value is non-empty, or the non-empty hard-coded fallback is
substituted. -/
theorem resolveSecretKey_ne_empty (envSecretKey : Option String) :
    resolveSecretKey envSecretKey ≠ "" := by
  cases envSecretKey with
  | none => simp [resolveSecretKey, fallbackSecretKey]
  | some s =>
      by_cases hs : s = "" <;> simp [resolveSecretKey, fallbackSecretKey, hs]

/-- `findUserByEmail` only returns an identity bound to the looked-up
email. -/
theorem findUserByEmail_email {store : List UserEntity} {email : String}
    {u : UserEntity} (h : findUserByEmail store email = some u) :
    u.email = email := by
  have := List.find?_some h
  simpa using this

/-! Claim theorems. -/

/-- C1: for a request whose url is not on the public allowlist and a handler
declaring a non-empty required-role set, the Role Guard rejects with
`Forbidden` when no user is attached to the request, rejects with `Forbidden`
when the attached user's role set has empty intersection with the required
set, and allows when the intersection is non-empty (any-of matching); in
particular a user holding only `{User}` is allowed on an operation requiring
`{User, Admin}`; and when the handler declares no required-role metadata the
guard allows unconditionally. -/
theorem rolesGuard_access_spec (url : String) (requiredRoles : List RoleTypes)
    (hUrl : url ∉ ignoredRoutes) (_hNe : requiredRoles ≠ []) :
    RolesGuard.canActivate url none (some requiredRoles) =
        .reject (.forbidden "User not found")
    ∧ (∀ u : UserEntity, (∀ r ∈ requiredRoles, r ∉ u.role) →
        RolesGuard.canActivate url (some u) (some requiredRoles) =
          .reject (.forbidden "You do not have the required role"))
    ∧ (∀ u : UserEntity, (∃ r ∈ requiredRoles, r ∈ u.role) →
        RolesGuard.canActivate url (some u) (some requiredRoles) = .allow)
    ∧ (∀ u : UserEntity, u.role = [RoleTypes.user] →
        RolesGuard.canActivate url (some u)
          (some [RoleTypes.user, RoleTypes.admin]) = .allow)
    ∧ (∀ url2 : String, ∀ user2 : Option UserEntity,
        RolesGuard.canActivate url2 user2 none = .allow) := by
  refine ⟨?_, ?_, ?_, ?_, ?_⟩
  · simp [RolesGuard.canActivate, hUrl]
  · intro u hEmpty
    simp only [RolesGuard.canActivate, if_neg hUrl]
    rw [if_neg]
    simp only [List.any_eq_true, decide_eq_true_eq, not_exists]
    intro r hr
    exact hEmpty r hr.1 hr.2
  · intro u hInter
    simp only [RolesGuard.canActivate, if_neg hUrl]
    rw [if_pos]
    simp only [List.any_eq_true, decide_eq_true_eq]
    exact hInter
  · intro u hu
    simp only [RolesGuard.canActivate, if_neg hUrl]
    rw [if_pos]
    simp [hu]
  · intro url2 user2
    unfold RolesGuard.canActivate
    split <;> rfl

/-- C1 witness: a `User`-only identity on a `/api/v1/book` operation
requiring `{User, Admin}` is allowed, and with no attached user the same
operation requiring `{Admin}` is rejected. -/
theorem rolesGuard_access_spec_witness :
    ("/api/v1/book" ∉ ignoredRoutes
      ∧ ([RoleTypes.admin] : List RoleTypes) ≠ []
      ∧ aliceActive.role = [RoleTypes.user])
    ∧ RolesGuard.canActivate "/api/v1/book" none (some [RoleTypes.admin]) =
        .reject (.forbidden "User not found")
    ∧ RolesGuard.canActivate "/api/v1/book" (some aliceActive)
        (some [RoleTypes.user, RoleTypes.admin]) = .allow :=
  ⟨⟨by decide, by decide, rfl⟩,
    (rolesGuard_access_spec "/api/v1/book" [RoleTypes.admin]
      (by decide) (by decide)).1,
    (rolesGuard_access_spec "/api/v1/book" [RoleTypes.admin]
      (by decide) (by decide)).2.2.2.1 aliceActive rfl⟩

/-- C2: the Access Guard allows a request to signin or signup even with no
token; on every other path it rejects with `Unauthenticated` ("token not
provided") when no token can be extracted from the `authorization` header,
rejects with `Unauthenticated` ("invalid or expired") when the extracted
token fails verification, and allows when it verifies. -/
theorem jwtAuthGuard_spec (verifyOk : String → Bool) (path : String)
    (authHeader : Option String) (hPath : path ∉ ignoredRoutes) :
    (∀ p ∈ ignoredRoutes, ∀ ah : Option String, ∀ vOk : String → Bool,
        JwtAuthGuard.canActivate vOk p ah = .allow)
    ∧ (headerToken authHeader = none →
        JwtAuthGuard.canActivate verifyOk path authHeader =
          .reject (.unauthorized "Token not provided. Please log in."))
    ∧ (∀ t, headerToken authHeader = some t → verifyOk t = false →
        JwtAuthGuard.canActivate verifyOk path authHeader =
          .reject (.unauthorized "Invalid or expired token."))
    ∧ (∀ t, headerToken authHeader = some t → verifyOk t = true →
        JwtAuthGuard.canActivate verifyOk path authHeader = .allow) := by
  refine ⟨?_, ?_, ?_, ?_⟩
  · intro p hp ah vOk
    simp [JwtAuthGuard.canActivate, hp]
  · intro hTok
    simp [JwtAuthGuard.canActivate, hPath, hTok]
  · intro t hTok hVerify
    simp [JwtAuthGuard.canActivate, hPath, hTok, hVerify]
  · intro t hTok hVerify
    simp [JwtAuthGuard.canActivate, hPath, hTok, hVerify]

/-- C2 witness: signin is allowed with no header; a tokenless request to a
book route is rejected as unauthenticated. -/
theorem jwtAuthGuard_spec_witness :
    ("/api/v1/book" ∉ ignoredRoutes
      ∧ "/api/v1/user/signin" ∈ ignoredRoutes
      ∧ headerToken none = none)
    ∧ JwtAuthGuard.canActivate (fun _ => false) "/api/v1/user/signin" none =
        .allow
    ∧ JwtAuthGuard.canActivate (fun _ => false) "/api/v1/book" none =
        .reject (.unauthorized "Token not provided. Please log in.") :=
  ⟨⟨by decide, by decide, rfl⟩,
    (jwtAuthGuard_spec (fun _ => false) "/api/v1/book" none (by decide)).1
      "/api/v1/user/signin" (by decide) none (fun _ => false),
    (jwtAuthGuard_spec (fun _ => false) "/api/v1/book" none (by decide)).2.1
      rfl⟩

/-- C3: signin fails "User not found" when no identity matches the email;
otherwise fails "User is Deactivated" when the identity is deactivated —
for every hash function and password, so also when the password is correct;
otherwise fails "Invalid credentials" when the password does not verify
against the stored hash; otherwise returns the identity. The order of the
checks is exactly lookup, status, password. -/
theorem signin_check_order (hashF : String → String) (store : List UserEntity)
    (dto : UserSigninDto) :
    (findUserByEmail store dto.email = none →
      signin hashF store dto = .error (.badRequest "User not found"))
    ∧ (∀ u, findUserByEmail store dto.email = some u →
        u.status = Status.deactivated →
        signin hashF store dto = .error (.badRequest "User is Deactivated"))
    ∧ (∀ u, findUserByEmail store dto.email = some u →
        u.status ≠ Status.deactivated → hashF dto.password ≠ u.password →
        signin hashF store dto = .error (.badRequest "Invalid credentials"))
    ∧ (∀ u, findUserByEmail store dto.email = some u →
        u.status ≠ Status.deactivated → hashF dto.password = u.password →
        signin hashF store dto = .ok u) := by
  refine ⟨?_, ?_, ?_, ?_⟩
  · intro hFind
    simp [signin, hFind]
  · intro u hFind hStatus
    simp [signin, hFind, hStatus]
  · intro u hFind hStatus hPwd
    simp [signin, hFind, hStatus, hPwd]
  · intro u hFind hStatus hPwd
    simp [signin, hFind, hStatus, hPwd]

/-- C3 witness: signin against the deactivated identity with the correct
password still fails "User is Deactivated"; with a fresh store it fails
"User not found". -/
theorem signin_check_order_witness :
    (findUserByEmail [aliceDeactivated] demoSigninDto.email =
        some aliceDeactivated
      ∧ aliceDeactivated.status = Status.deactivated
      ∧ demoHash demoSigninDto.password = aliceDeactivated.password
      ∧ findUserByEmail [] demoSigninDto.email = none)
    ∧ signin demoHash [aliceDeactivated] demoSigninDto =
        .error (.badRequest "User is Deactivated")
    ∧ signin demoHash [] demoSigninDto =
        .error (.badRequest "User not found") :=
  ⟨⟨rfl, rfl, rfl, rfl⟩,
    (signin_check_order demoHash [aliceDeactivated] demoSigninDto).2.1
      aliceDeactivated rfl rfl,
    (signin_check_order demoHash [] demoSigninDto).1 rfl⟩

/-- C4: contrary to the claim, the entity returned by a successful signup
carries the stored password hash: `signup` saves the entity whose `password`
column is the bcrypt hash of the supplied password and returns that entity
to the controller, which returns it to the caller. At the concrete input
below the response's `password` field equals the stored hash of the supplied
password. -/
theorem signup_response_contains_hash :
    ∃ u : UserEntity,
      (signup demoHash 1 0 [] demoSignupDto).1 = .ok u
      ∧ u.password = demoHash demoSignupDto.password
      ∧ findUserByEmail (signup demoHash 1 0 [] demoSignupDto).2
          demoSignupDto.email = some u :=
  ⟨_, rfl, rfl, rfl⟩

/-- C5: signup with an email already bound in the store fails with the
duplicate-email rejection and returns the store unchanged, whatever the
store's history. -/
theorem signup_duplicate_rejected (hashF : String → String) (nextId now : Int)
    (store : List UserEntity) (dto : UserSignupDto)
    (hDup : ∃ u ∈ store, u.email = dto.email) :
    (signup hashF nextId now store dto).1 =
        .error (.badRequest "This email is already created")
    ∧ (signup hashF nextId now store dto).2 = store := by
  cases hFind : findUserByEmail store dto.email with
  | none =>
      exfalso
      obtain ⟨u, hu, he⟩ := hDup
      rw [findUserByEmail, List.find?_eq_none] at hFind
      exact hFind u hu (by simpa using he)
  | some v =>
      constructor <;> simp [signup, hFind]

/-- C5 witness: after a successful signup of `a@x.com`, a second signup with
the same email fails `DuplicateIdentity` and leaves the store as it was. -/
theorem signup_duplicate_rejected_witness :
    (∃ u ∈ (signup demoHash 1 0 [] demoSignupDto).2,
        u.email = demoSignupDto.email)
    ∧ (signup demoHash 2 5 (signup demoHash 1 0 [] demoSignupDto).2
          demoSignupDto).1 =
        .error (.badRequest "This email is already created")
    ∧ (signup demoHash 2 5 (signup demoHash 1 0 [] demoSignupDto).2
          demoSignupDto).2 =
        (signup demoHash 1 0 [] demoSignupDto).2 := by
  have hDup : ∃ u ∈ (signup demoHash 1 0 [] demoSignupDto).2,
      u.email = demoSignupDto.email := by decide
  obtain ⟨h1, h2⟩ := signup_duplicate_rejected demoHash 2 5
    (signup demoHash 1 0 [] demoSignupDto).2 demoSignupDto hDup
  exact ⟨hDup, h1, h2⟩

/-- C6: on a successful change-password call the repository row for the
identity is replaced by the prior record with only the `password` column
re-hashed from the new password and the `updatedAt` audit timestamp
refreshed; `id`, `name`, `email`, `role`, `status`, `createdAt`, `createdBy`
and `updatedBy` are preserved, and — the persisted row being a `UserEntity`
— no field beyond those of the identity record is added to it. Every other
row of the store is untouched. -/
theorem changePassword_frame (hashF : String → String) (now : Int)
    (store : List UserEntity) (dto : UserChangePasswordDto)
    (userExist : UserEntity)
    (hFind : findUserByEmail store dto.email = some userExist)
    (hStatus : userExist.status ≠ Status.deactivated)
    (hPwd : hashF dto.currentPassword = userExist.password) :
    (changePassword hashF now store dto).1 =
      .ok { entity := { userExist with
              password := hashF dto.newPassword, updatedAt := now }
            currentPassword := some dto.currentPassword
            newPassword := some dto.newPassword }
    ∧ (changePassword hashF now store dto).2 =
        store.map (fun u => if u.id = userExist.id then
          { userExist with
              password := hashF dto.newPassword, updatedAt := now }
          else u) := by
  have hEmail : userExist.email = dto.email := findUserByEmail_email hFind
  constructor <;> simp [changePassword, hFind, hStatus, hPwd, hEmail]

/-- C6 witness: changing `password1` to `password2` for the active identity
re-hashes the password and leaves every other field of the stored row
unchanged. -/
theorem changePassword_frame_witness :
    (findUserByEmail [aliceActive] demoChangeDto.email = some aliceActive
      ∧ aliceActive.status ≠ Status.deactivated
      ∧ demoHash demoChangeDto.currentPassword = aliceActive.password)
    ∧ (changePassword demoHash 7 [aliceActive] demoChangeDto).1 =
        .ok { entity := { aliceActive with
                password := demoHash "password2", updatedAt := 7 }
              currentPassword := some "password1"
              newPassword := some "password2" }
    ∧ (changePassword demoHash 7 [aliceActive] demoChangeDto).2 =
        [aliceActive].map (fun u => if u.id = aliceActive.id then
          { aliceActive with
              password := demoHash "password2", updatedAt := 7 }
          else u) :=
  ⟨⟨rfl, by decide, rfl⟩,
    (changePassword_frame demoHash 7 [aliceActive] demoChangeDto aliceActive
      rfl (by decide) rfl).1,
    (changePassword_frame demoHash 7 [aliceActive] demoChangeDto aliceActive
      rfl (by decide) rfl).2⟩

/-- C7 counterexample: the two rejections are observably different.
Signin with an unknown email fails with message "User not found", while
signin with a known email and a wrong password fails with message
"Invalid credentials"; the two thrown values are distinct, so the failure
does reveal which case occurred. -/
theorem signin_rejections_distinguishable :
    signin demoHash [] demoSigninDto = .error (.badRequest "User not found")
    ∧ signin demoHash [aliceOtherPwd] demoSigninDto =
        .error (.badRequest "Invalid credentials")
    ∧ HttpError.badRequest "User not found" ≠
        HttpError.badRequest "Invalid credentials" :=
  ⟨rfl, rfl, by decide⟩

/-- C7 amended: both the unknown-email rejection and the wrong-password
rejection are thrown as the same exception class (`BadRequestException`,
400-equivalent), but their messages differ ("User not found" vs "Invalid
credentials"), so the no-such-email case is distinguishable from the
wrong-password case by the response message. -/
theorem signin_rejections_same_class (hashF : String → String)
    (storeA storeB : List UserEntity) (dto : UserSigninDto) (u : UserEntity)
    (hA : findUserByEmail storeA dto.email = none)
    (hB : findUserByEmail storeB dto.email = some u)
    (hStatus : u.status ≠ Status.deactivated)
    (hPwd : hashF dto.password ≠ u.password) :
    ∃ mA mB,
      signin hashF storeA dto = .error (.badRequest mA)
      ∧ signin hashF storeB dto = .error (.badRequest mB)
      ∧ mA ≠ mB := by
  refine ⟨"User not found", "Invalid credentials", ?_, ?_, by decide⟩
  · simp [signin, hA]
  · simp [signin, hB, hStatus, hPwd]

/-- C7 amended-claim witness: at a concrete pair of stores the two signin
runs produce 400-class rejections with different messages. -/
theorem signin_rejections_same_class_witness :
    (findUserByEmail [] demoSigninDto.email = none
      ∧ findUserByEmail [aliceOtherPwd] demoSigninDto.email =
          some aliceOtherPwd
      ∧ aliceOtherPwd.status ≠ Status.deactivated
      ∧ demoHash demoSigninDto.password ≠ aliceOtherPwd.password)
    ∧ ∃ mA mB,
        signin demoHash [] demoSigninDto = .error (.badRequest mA)
        ∧ signin demoHash [aliceOtherPwd] demoSigninDto =
            .error (.badRequest mB)
        ∧ mA ≠ mB :=
  ⟨⟨rfl, rfl, by decide, by decide⟩,
    signin_rejections_same_class demoHash [] [aliceOtherPwd] demoSigninDto
      aliceOtherPwd rfl rfl (by decide) (by decide)⟩

/-- C8 counterexample: with no secret configured in the environment, token
issuance does not fail — it succeeds, signing with the hard-coded fallback
secret. -/
theorem accessToken_succeeds_without_env_secret :
    accessToken demoSign none aliceActive =
      .ok (demoSign { id := 1, email := "a@x.com" } fallbackSecretKey)
    ∧ ∀ e, accessToken demoSign none aliceActive ≠ .error e := by
  constructor
  · rfl
  · intro e h
    rw [show accessToken demoSign none aliceActive =
      .ok (demoSign { id := 1, email := "a@x.com" } fallbackSecretKey)
      from rfl] at h
    exact Except.noConfusion h

/-- C8 amended: token issuance never fails. When no secret (or an empty
one) is configured it succeeds using the hard-coded fallback secret — the
`ConfigurationError` branch is unreachable because the fallback literal is
non-empty; when a non-empty secret is configured it succeeds and signs the
claims `{id, email}` with that secret. -/
theorem accessToken_spec (signF : TokenClaims → String → String)
    (envSecretKey : Option String) (user : UserEntity) :
    (envSecretKey = none →
      accessToken signF envSecretKey user =
        .ok (signF { id := user.id, email := user.email } fallbackSecretKey))
    ∧ (∀ s, envSecretKey = some s → s ≠ "" →
        accessToken signF envSecretKey user =
          .ok (signF { id := user.id, email := user.email } s))
    ∧ (∀ e, accessToken signF envSecretKey user ≠ .error e) := by
  refine ⟨?_, ?_, ?_⟩
  · intro h
    subst h
    rfl
  · intro s h hs
    subst h
    simp [accessToken, resolveSecretKey, hs]
  · intro e
    simp [accessToken, resolveSecretKey_ne_empty envSecretKey]

/-- C8 amended-claim witness: with the secret `s3cret` configured, issuance
signs the claims with `s3cret`. -/
theorem accessToken_spec_witness :
    (some "s3cret" = some "s3cret" ∧ "s3cret" ≠ "")
    ∧ accessToken demoSign (some "s3cret") aliceActive =
        .ok (demoSign { id := 1, email := "a@x.com" } "s3cret") :=
  ⟨⟨rfl, by decide⟩,
    (accessToken_spec demoSign (some "s3cret") aliceActive).2.1 "s3cret"
      rfl (by decide)⟩

/-- C9: the identity-resolving middleware attaches no user and calls
`next()` when the `authorization` header is missing or does not start with
`Bearer`; it swallows a failed token verification, a throwing identity
lookup and a lookup that finds no user, attaching no user in each case; and
for every input it calls `next()` — it never fails the request. -/
theorem loggerMiddleware_resolve_spec
    (verifyF : String → String → Except String TokenClaims)
    (envSecretKey : Option String) (store : List UserEntity)
    (authHeader : Option String) :
    (authHeader = none →
      LoggerMiddleware.use verifyF envSecretKey store authHeader = .next none)
    ∧ (∀ h, authHeader = some h → ¬ h.startsWith "Bearer" →
        LoggerMiddleware.use verifyF envSecretKey store authHeader =
          .next none)
    ∧ (∀ h t e, authHeader = some h → (splitSpace h)[1]? = some t →
        verifyF t (resolveSecretKey envSecretKey) = .error e →
        LoggerMiddleware.use verifyF envSecretKey store authHeader =
          .next none)
    ∧ (∀ h t c e, authHeader = some h → (splitSpace h)[1]? = some t →
        verifyF t (resolveSecretKey envSecretKey) = .ok c →
        findOne store c.id = .error e →
        LoggerMiddleware.use verifyF envSecretKey store authHeader =
          .next none)
    ∧ (∀ h t c, authHeader = some h → (splitSpace h)[1]? = some t →
        verifyF t (resolveSecretKey envSecretKey) = .ok c →
        findOne store c.id = .ok none →
        LoggerMiddleware.use verifyF envSecretKey store authHeader =
          .next none)
    ∧ (∃ r, LoggerMiddleware.use verifyF envSecretKey store authHeader =
        .next r) := by
  refine ⟨?_, ?_, ?_, ?_, ?_, ?_⟩
  · intro h
    subst h
    rfl
  · intro h hEq hsw
    subst hEq
    simp [LoggerMiddleware.use, hsw]
  · intro h t e hEq hTok hVer
    subst hEq
    by_cases hsw : h.startsWith "Bearer"
    · simp [LoggerMiddleware.use, hsw, LoggerMiddleware.tryResolve, hTok,
        hVer, Except.bind]
    · simp [LoggerMiddleware.use, hsw]
  · intro h t c e hEq hTok hVer hFindErr
    subst hEq
    by_cases hsw : h.startsWith "Bearer"
    · simp [LoggerMiddleware.use, hsw, LoggerMiddleware.tryResolve, hTok,
        hVer, hFindErr, Except.bind]
    · simp [LoggerMiddleware.use, hsw]
  · intro h t c hEq hTok hVer hFindNone
    subst hEq
    by_cases hsw : h.startsWith "Bearer"
    · simp [LoggerMiddleware.use, hsw, LoggerMiddleware.tryResolve, hTok,
        hVer, hFindNone, Except.bind]
    · simp [LoggerMiddleware.use, hsw]
  · cases authHeader with
    | none => exact ⟨none, rfl⟩
    | some h =>
        by_cases hsw : h.startsWith "Bearer"
        · cases hR : LoggerMiddleware.tryResolve verifyF
            (resolveSecretKey envSecretKey) store h with
          | ok u => exact ⟨u, by simp [LoggerMiddleware.use, hsw, hR]⟩
          | error e => exact ⟨none, by simp [LoggerMiddleware.use, hsw, hR]⟩
        · exact ⟨none, by simp [LoggerMiddleware.use, hsw]⟩

/-- C9 witness: a `Bearer` header whose token fails verification degrades to
`next()` with no identity attached, as does a missing header. -/
theorem loggerMiddleware_resolve_spec_witness :
    ((splitSpace "Bearer deadbeef")[1]? = some "deadbeef"
      ∧ (fun (_ : String) (_ : String) =>
          (Except.error "invalid signature" : Except String TokenClaims))
          "deadbeef" (resolveSecretKey none) = .error "invalid signature")
    ∧ LoggerMiddleware.use
        (fun _ _ => Except.error "invalid signature") none []
        (some "Bearer deadbeef") = .next none
    ∧ LoggerMiddleware.use
        (fun _ _ => Except.error "invalid signature") none [] none =
        .next none :=
  ⟨⟨rfl, rfl⟩,
    (loggerMiddleware_resolve_spec (fun _ _ => Except.error "invalid signature")
        none [] (some "Bearer deadbeef")).2.2.1
      "Bearer deadbeef" "deadbeef" "invalid signature" rfl rfl rfl,
    (loggerMiddleware_resolve_spec (fun _ _ => Except.error "invalid signature")
        none [] none).1 rfl⟩

/-- C10: signup persists the caller-supplied role array verbatim as the new
identity's role set, and the Access Guard allows the signup path with no
token; so an unauthenticated signup naming `[Admin]` creates an identity
whose role set contains `Admin` (exhibited by the witness). -/
theorem signup_persists_caller_roles (hashF : String → String)
    (nextId now : Int) (store : List UserEntity) (dto : UserSignupDto)
    (hFresh : findUserByEmail store dto.email = none) :
    (∃ u, (signup hashF nextId now store dto).1 = .ok u
      ∧ u.role = dto.role
      ∧ u ∈ (signup hashF nextId now store dto).2)
    ∧ (∀ vOk : String → Bool,
        JwtAuthGuard.canActivate vOk "/api/v1/user/signup" none = .allow) := by
  constructor
  · refine ⟨signupEntity hashF nextId now dto, ?_, rfl, ?_⟩ <;>
      simp [signup, hFresh]
  · intro vOk
    unfold JwtAuthGuard.canActivate
    rw [if_pos (by decide)]

/-- C10 witness: an unauthenticated signup requesting `[Admin]` is let
through by the Access Guard and creates (and persists) an identity whose
role set contains `Admin`. -/
theorem signup_persists_caller_roles_witness :
    (findUserByEmail [] adminSignupDto.email = none)
    ∧ (∃ u, (signup demoHash 1 0 [] adminSignupDto).1 = .ok u
        ∧ RoleTypes.admin ∈ u.role
        ∧ u ∈ (signup demoHash 1 0 [] adminSignupDto).2)
    ∧ JwtAuthGuard.canActivate (fun _ => false) "/api/v1/user/signup" none =
        .allow := by
  obtain ⟨⟨u, hu, hr, hs⟩, hg⟩ :=
    signup_persists_caller_roles demoHash 1 0 [] adminSignupDto rfl
  refine ⟨rfl, ⟨u, hu, ?_, hs⟩, hg (fun _ => false)⟩
  rw [hr]
  decide

end BookInventory
